import Mathlib

set_option maxRecDepth 4000

/-!
# Verification of the claude-telegram-bot session/process orchestration core

This file shallowly embeds the session-key derivation, session store,
workspace (repo) store, admission gate and process-invoker outcome
classification of the claude-telegram-bot repository, and proves the
frozen claims C1–C10 about them.

Machine integers are modelled as `Nat` with explicit `% 2 ^ 32` where the
source performs 32-bit arithmetic (the MD5 digest used for workspace
fingerprints).  Strings are Lean `String`s; the byte stream fed to the
hash is the UTF-8 encoding of the path, as `crypto.createHash('md5')
.update(path)` uses in Node.
-/

namespace ClaudeTelegramBot

/-! ## MD5 (used by `hashRepoPath` in src/repos.js)

A faithful executable implementation of MD5 over a list of bytes,
operating on `Nat` masked to 32 bits. -/

/-- Mask a natural number to 32 bits. -/
def mask32 (x : Nat) : Nat := x % 4294967296

/-- 32-bit addition. -/
def add32 (a b : Nat) : Nat := (a + b) % 4294967296

/-- 32-bit left rotation, input assumed `< 2 ^ 32`. -/
def rotl32 (x s : Nat) : Nat := mask32 (x * 2 ^ s) + x / 2 ^ (32 - s)

/-- 32-bit bitwise complement. -/
def not32 (x : Nat) : Nat := 4294967295 ^^^ x

/-- The 64 MD5 sine-derived constants. -/
def md5K : List Nat :=
  [3614090360, 3905402710, 606105819, 3250441966, 4118548399, 1200080426, 2821735955, 4249261313,
   1770035416, 2336552879, 4294925233, 2304563134, 1804603682, 4254626195, 2792965006, 1236535329,
   4129170786, 3225465664, 643717713, 3921069994, 3593408605, 38016083, 3634488961, 3889429448,
   568446438, 3275163606, 4107603335, 1163531501, 2850285829, 4243563512, 1735328473, 2368359562,
   4294588738, 2272392833, 1839030562, 4259657740, 2763975236, 1272893353, 4139469664, 3200236656,
   681279174, 3936430074, 3572445317, 76029189, 3654602809, 3873151461, 530742520, 3299628645,
   4096336452, 1126891415, 2878612391, 4237533241, 1700485571, 2399980690, 4293915773, 2240044497,
   1873313359, 4264355552, 2734768916, 1309151649, 4149444226, 3174756917, 718787259, 3951481745]

/-- The 64 MD5 per-round left-rotation amounts. -/
def md5S : List Nat :=
  [7, 12, 17, 22, 7, 12, 17, 22, 7, 12, 17, 22, 7, 12, 17, 22,
   5, 9, 14, 20, 5, 9, 14, 20, 5, 9, 14, 20, 5, 9, 14, 20,
   4, 11, 16, 23, 4, 11, 16, 23, 4, 11, 16, 23, 4, 11, 16, 23,
   6, 10, 15, 21, 6, 10, 15, 21, 6, 10, 15, 21, 6, 10, 15, 21]

/-- One MD5 round: `i` is the round index, `m` fetches message word `g`. -/
def md5Round (m : Nat → Nat) (st : Nat × Nat × Nat × Nat) (i : Nat) :
    Nat × Nat × Nat × Nat :=
  let (a, b, c, d) := st
  let f :=
    if i < 16 then (b &&& c) ||| (not32 b &&& d)
    else if i < 32 then (d &&& b) ||| (not32 d &&& c)
    else if i < 48 then b ^^^ c ^^^ d
    else c ^^^ (b ||| not32 d)
  let g :=
    if i < 16 then i
    else if i < 32 then (5 * i + 1) % 16
    else if i < 48 then (3 * i + 5) % 16
    else (7 * i) % 16
  let tmp := add32 (add32 (add32 a f) (md5K.getD i 0)) (m g)
  (d, add32 b (rotl32 (mask32 tmp) (md5S.getD i 0)), b, c)

/-- Pad a byte message per MD5: append `0x80`, zeros to 56 mod 64, then the
bit length as 8 little-endian bytes. -/
def md5Pad (msg : List Nat) : List Nat :=
  let bitLen := msg.length * 8
  let zeros := (119 - msg.length % 64) % 64
  msg ++ [128] ++ List.replicate zeros 0 ++
    (List.range 8).map (fun i => bitLen / 2 ^ (8 * i) % 256)

/-- Little-endian 32-bit word starting at byte offset `off`. -/
def wordAt (bs : List Nat) (off : Nat) : Nat :=
  bs.getD off 0 + bs.getD (off + 1) 0 * 256 + bs.getD (off + 2) 0 * 65536 +
    bs.getD (off + 3) 0 * 16777216

/-- Process all 64-byte blocks of the padded message. -/
def md5Core (msg : List Nat) : Nat × Nat × Nat × Nat :=
  let padded := md5Pad msg
  (List.range (padded.length / 64)).foldl
    (fun (st : Nat × Nat × Nat × Nat) bi =>
      let (a0, b0, c0, d0) := st
      let m := fun g => wordAt padded (64 * bi + 4 * g)
      let (a, b, c, d) := (List.range 64).foldl (md5Round m) st
      (add32 a0 a, add32 b0 b, add32 c0 c, add32 d0 d))
    (1732584193, 4023233417, 2562383102, 271733878)

/-- Serialize a 32-bit word to 4 little-endian bytes. -/
def wordLEBytes (w : Nat) : List Nat :=
  [w % 256, w / 256 % 256, w / 65536 % 256, w / 16777216 % 256]

/-- Lowercase hexadecimal digit for `n < 16`. -/
def hexDigit (n : Nat) : Char :=
  if n < 10 then Char.ofNat (48 + n) else Char.ofNat (87 + n)

/-- Two lowercase hex characters for a byte. -/
def byteHexChars (b : Nat) : List Char := [hexDigit (b / 16), hexDigit (b % 16)]

/-- The lowercase hex characters of the MD5 digest of a byte message. -/
def md5HexChars (msg : List Nat) : List Char :=
  match md5Core msg with
  | (a, b, c, d) =>
    ((wordLEBytes a ++ wordLEBytes b ++ wordLEBytes c ++ wordLEBytes d).map
      byteHexChars).flatten

/-- UTF-8 bytes of one character (as Node's `Buffer.from(s, 'utf8')`). -/
def utf8Bytes (c : Char) : List Nat :=
  let n := c.toNat
  if n < 128 then [n]
  else if n < 2048 then [192 + n / 64, 128 + n % 64]
  else if n < 65536 then [224 + n / 4096, 128 + n / 64 % 64, 128 + n % 64]
  else [240 + n / 262144, 128 + n / 4096 % 64, 128 + n / 64 % 64, 128 + n % 64]

/-- UTF-8 encoding of a string as a byte list. -/
def utf8Encode (s : String) : List Nat := (s.data.map utf8Bytes).flatten

/-- `hashRepoPath` from src/repos.js: the first 8 lowercase hex characters
of the MD5 digest of the path. -/
def hashRepoPath (repoPath : String) : String :=
  ⟨(md5HexChars (utf8Encode repoPath)).take 8⟩

/-! ## Workspace (repo) store — src/repos.js

Chats are keyed by `String(chatId)`: the store normalizes a numeric or
string chat id to its decimal-string form.  The filesystem consulted by
`statSync` is modelled as a function from paths to an optional file kind
(`none` models "statSync throws", e.g. ENOENT). -/

/-- A Telegram chat id as the JS caller may pass it: a number or a string. -/
inductive ChatId
  | num (n : Int)
  | str (s : String)

/-- `String(chatId)` — the key used by every repo-store operation. -/
def chatKey : ChatId → String
  | .num n => toString n
  | .str s => s

/-- What `statSync` reports for a path. -/
inductive FileKind
  | dir
  | file
deriving DecidableEq

/-- One entry of repos.json: `{ path, setAt }`. -/
structure RepoRec where
  path : String
  setAt : String
deriving DecidableEq

/-- JS object property read: first binding of the key, if any. -/
def lookupAssoc {α : Type} (k : String) : List (String × α) → Option α
  | [] => none
  | (k', v) :: rest => if k' = k then some v else lookupAssoc k rest

/-- JS object property write: replace the binding if present, else append. -/
def upsertAssoc {α : Type} (k : String) (v : α) :
    List (String × α) → List (String × α)
  | [] => [(k, v)]
  | (k', v') :: rest =>
    if k' = k then (k, v) :: rest else (k', v') :: upsertAssoc k v rest

/-- The in-memory mirror of repos.json. -/
abbrev RepoMap : Type := List (String × RepoRec)

/-- `setRepoForChat` (src/repos.js): validate the path with `statSync`,
fail unless it is a directory, otherwise upsert `{path, setAt: now}`.
A `.error` models the thrown `Invalid path` error (InvalidPathError). -/
def setRepoForChat (fs : String → Option FileKind) (now : String)
    (chatId : ChatId) (repoPath : String) (m : RepoMap) : Except String RepoMap :=
  match fs repoPath with
  | some .dir => .ok (upsertAssoc (chatKey chatId) ⟨repoPath, now⟩ m)
  | some .file => .error ("Invalid path: " ++ repoPath ++ " - Path is not a directory")
  | none => .error ("Invalid path: " ++ repoPath ++ " - stat failed")

/-- The store after a `setRepoForChat` call as the bot performs it:
on a thrown error the in-memory mapping is left untouched. -/
def applySetRepo (fs : String → Option FileKind) (now : String)
    (chatId : ChatId) (repoPath : String) (m : RepoMap) : RepoMap :=
  match setRepoForChat fs now chatId repoPath m with
  | .ok m' => m'
  | .error _ => m

/-- `getRepoForChat` (src/repos.js): `mapping?.path || defaultPath`;
note JS `||`, so an empty stored path also falls back to the default. -/
def getRepoForChat (m : RepoMap) (chatId : ChatId) (defaultPath : String) : String :=
  match lookupAssoc (chatKey chatId) m with
  | some r => if r.path = "" then defaultPath else r.path
  | none => defaultPath

/-- `removeRepoForChat` (src/repos.js): `delete repoMappings[String(chatId)]`. -/
def removeRepoForChat (m : RepoMap) (chatId : ChatId) : RepoMap :=
  m.filter (fun p => p.1 != chatKey chatId)

/-! ## Session store — src/sessions.js

`getSessionUUID` / `resetSession` mint fresh handles with
`crypto.randomUUID()`, whose contract is a globally fresh, never
previously issued identifier.  That supply is modelled by a counter
`nextId` carried in the store state: the `n`-th handle minted is `n`,
so freshness is exact rather than probabilistic. -/

/-- One entry of sessions.json (`createdAt` is irrelevant to the claims
and omitted; `previousUUID` is present exactly when `resetSession` saved
an old handle). -/
structure SessionRec where
  uuid : Nat
  previousUUID : Option Nat
deriving DecidableEq

/-- Session-store state: the mapping mirror plus the fresh-handle supply. -/
structure SessionSt where
  mappings : List (String × SessionRec)
  nextId : Nat

/-- `getSessionUUID` (src/sessions.js): return the existing handle, or mint
a fresh one, store it with no `previousUUID`, and return it. -/
def getSessionUUID (logicalName : String) (s : SessionSt) : Nat × SessionSt :=
  match lookupAssoc logicalName s.mappings with
  | some r => (r.uuid, s)
  | none =>
    (s.nextId,
     ⟨upsertAssoc logicalName ⟨s.nextId, none⟩ s.mappings, s.nextId + 1⟩)

/-- `resetSession` (src/sessions.js): always mint a fresh handle, saving the
previously current one (if any) in `previousUUID`. -/
def resetSession (logicalName : String) (s : SessionSt) : Nat × SessionSt :=
  (s.nextId,
   ⟨upsertAssoc logicalName
      ⟨s.nextId, (lookupAssoc logicalName s.mappings).map (·.uuid)⟩ s.mappings,
    s.nextId + 1⟩)

/-- An operation against the session store. -/
inductive SOp
  | getU (k : String)
  | resetU (k : String)

/-- The key an operation addresses. -/
def SOp.key : SOp → String
  | .getU k => k
  | .resetU k => k

/-- Run one operation, returning the handle it hands out. -/
def stepOp (s : SessionSt) (op : SOp) : Nat × SessionSt :=
  match op with
  | .getU k => getSessionUUID k s
  | .resetU k => resetSession k s

/-- Run a list of operations, collecting `(key, handle)` for each. -/
def runOps (s : SessionSt) : List SOp → SessionSt × List (String × Nat)
  | [] => (s, [])
  | op :: rest =>
    let p := stepOp s op
    let q := runOps p.2 rest
    (q.1, (op.key, p.1) :: q.2)

/-- Well-formedness: every stored handle (current or previous) was minted
by the supply, i.e. is below `nextId`. -/
def WFSession (s : SessionSt) : Prop :=
  ∀ k r, lookupAssoc k s.mappings = some r →
    r.uuid < s.nextId ∧ ∀ u, r.previousUUID = some u → u < s.nextId

/-! ## Admission gate — `processingUsers` in index.js

`const processingUsers = new Set()`; a text/voice handler checks
`processingUsers.has(lockKey)` (the lock key is the string form of the
chat id), replies "busy" if held, otherwise adds the key and removes it
in `finally`. -/

/-- `tryAcquire`: `has` then `add`.  Returns whether the caller may
proceed, and the updated lock set. -/
def tryAcquire (c : String) (s : List String) : Bool × List String :=
  if s.contains c then (false, s) else (true, c :: s)

/-- `release`: `processingUsers.delete(lockKey)`. -/
def release (c : String) (s : List String) : List String := s.erase c

/-! ## Output sanitization — `cleanClaudeResponse` (src/claude.js)

The five `.replace` / `.trim` stages, modelled over `List Char` in the
source's order. -/

/-- `[a-zA-Z]`. -/
def isAsciiLetter (c : Char) : Bool :=
  (65 ≤ c.toNat && c.toNat ≤ 90) || (97 ≤ c.toNat && c.toNat ≤ 122)

/-- After `ESC [`, consume `[0-9;]*` and then a single ASCII letter;
`some rest` is the remainder after a complete escape sequence. -/
def ansiTail : List Char → Option (List Char)
  | [] => none
  | c :: rest =>
    if c.isDigit || c == ';' then ansiTail rest
    else if isAsciiLetter c then some rest
    else none

/-- The left-to-right scan of stage 1, structurally recursive on a fuel
argument; every step consumes at least one input character, so fuel
equal to the input length (as `removeAnsi` passes) is never exhausted. -/
def removeAnsiFuel : Nat → List Char → List Char
  | 0, l => l
  | _ + 1, [] => []
  | fuel + 1, '\x1B' :: '[' :: rest =>
    (match ansiTail rest with
     | some rem => removeAnsiFuel fuel rem
     | none => '\x1B' :: removeAnsiFuel fuel ('[' :: rest))
  | fuel + 1, c :: rest => c :: removeAnsiFuel fuel rest

/-- Stage 1, `replace(/\x1B\[[0-9;]*[a-zA-Z]/g, '')`: drop every complete
ANSI escape sequence, scanning left to right. -/
def removeAnsi (l : List Char) : List Char := removeAnsiFuel l.length l

/-- The ten Braille spinner glyphs of the stage-3 character class. -/
def spinnerChars : List Char := ['⠋', '⠙', '⠹', '⠸', '⠼', '⠴', '⠦', '⠧', '⠇', '⠏']

/-- Stage 3 on one line, `^[⠋⠙⠹⠸⠼⠴⠦⠧⠇⠏].*$` with the `m` flag: a line
whose FIRST character is a spinner glyph is replaced by the empty line. -/
def stripSpinnerLine (line : List Char) : List Char :=
  match line with
  | [] => []
  | c :: _ => if spinnerChars.contains c then [] else line

/-- Stage 3 on the whole text: per-line via the `m` flag (the newline
separators themselves are untouched by the replacement). -/
def stripSpinners (l : List Char) : List Char :=
  List.intercalate ['\n'] ((l.splitOn '\n').map stripSpinnerLine)

/-- Leading `'\n'` run: its length and the rest of the list. -/
def nlRun : List Char → Nat × List Char
  | [] => (0, [])
  | c :: rest =>
    if c == '\n' then
      let p := nlRun rest
      (p.1 + 1, p.2)
    else (0, c :: rest)

/-- Stage 4's scan, structurally recursive on fuel; every step consumes
at least one character, so fuel equal to the input length (as
`collapseBlank` passes) is never exhausted. -/
def collapseBlankFuel : Nat → List Char → List Char
  | 0, l => l
  | _ + 1, [] => []
  | fuel + 1, c :: rest =>
    if c == '\n' then
      let p := nlRun rest
      List.replicate (if p.1 + 1 ≥ 3 then 2 else p.1 + 1) '\n' ++ collapseBlankFuel fuel p.2
    else c :: collapseBlankFuel fuel rest

/-- Stage 4, `replace(/\n{3,}/g, '\n\n')`: every maximal run of 3 or more
newlines becomes exactly two. -/
def collapseBlank (l : List Char) : List Char := collapseBlankFuel l.length l

/-- The WhiteSpace/LineTerminator set of JS `String.prototype.trim`. -/
def isJsSpace (c : Char) : Bool :=
  c == ' ' || c == '\t' || c == '\n' || c == '\r' || c == '\x0b' || c == '\x0c' ||
  c == ' ' || c == '﻿' || c == ' ' ||
  (8192 ≤ c.toNat && c.toNat ≤ 8202) ||
  c == ' ' || c == ' ' || c == ' ' || c == ' ' || c == '　'

/-- Stage 5, `.trim()`. -/
def trimChars (l : List Char) : List Char :=
  ((l.dropWhile isJsSpace).reverse.dropWhile isJsSpace).reverse

/-- `cleanClaudeResponse` (src/claude.js): the five stages in source
order — ANSI escapes, carriage returns, spinner lines, blank-line
collapsing, trim. -/
def cleanClaudeResponse (response : String) : String :=
  ⟨trimChars (collapseBlank (stripSpinners
      ((removeAnsi response.data).filter (fun c => c != '\r'))))⟩

/-- Stage 3 as the claim words it ("strip lines consisting of
animated-progress-indicator glyphs"): remove exactly the nonempty lines
all of whose characters are spinner glyphs.  This definition follows the
claim's words, for comparison with `cleanClaudeResponse`. -/
def cleanResponseClaimed (response : String) : String :=
  ⟨trimChars (collapseBlank (List.intercalate ['\n']
      ((((removeAnsi response.data).filter (fun c => c != '\r')).splitOn '\n').filter
        (fun line => !(!line.isEmpty && line.all spinnerChars.contains)))))⟩

/-! ## Process invoker — `executeClaudeCode`

The repository's history holds two variants of the `close`-handler
diagnostic: the `--session-id` variant (src/claude.js and the
sessions.js-backed rewrite) rejects with `stderr || 'Unknown error'`,
while the `-c` (continue-in-directory) variant rejects with
`stderr || stdout || 'Unknown error'`.  Both are embedded. -/

/-- Classified outcome of one invocation. -/
inductive InvokeOutcome
  | success (response : String)
  | processError (message : String)
  | spawnFailure (message : String)
  | timeoutErr (message : String)
deriving DecidableEq

/-- `close`-handler of the `-c` variant: exit 0 resolves with the
sanitized stdout; otherwise reject with `stderr || stdout || 'Unknown
error'` (JS `||`: an empty string falls through). -/
def classifyClose (code : Int) (stdout stderr : String) : InvokeOutcome :=
  if code = 0 then .success (cleanClaudeResponse stdout)
  else .processError ("Claude Code failed: " ++
    (if stderr = "" then (if stdout = "" then "Unknown error" else stdout) else stderr))

/-- `close`-handler of the `--session-id` variant (src/claude.js):
reject with `stderr || 'Unknown error'` — no stdout fallback. -/
def classifyCloseById (code : Int) (stdout stderr : String) : InvokeOutcome :=
  if code = 0 then .success (cleanClaudeResponse stdout)
  else .processError ("Claude Code failed: " ++
    (if stderr = "" then "Unknown error" else stderr))

/-- `error`-handler: the subprocess failed to start. -/
def classifySpawnErr (msg : String) : InvokeOutcome :=
  .spawnFailure ("Failed to start Claude Code: " ++ msg)

/-- `spawnEnv` construction: spread the parent environment, then set
`ANTHROPIC_API_KEY` only when the configured credential is truthy
(present and nonempty). -/
def buildSpawnEnv (anthropicApiKey : Option String)
    (parentEnv : List (String × String)) : List (String × String) :=
  match anthropicApiKey with
  | some v => if v = "" then parentEnv else upsertAssoc "ANTHROPIC_API_KEY" v parentEnv
  | none => parentEnv

/-- `5 * 60 * 1000` — the `setTimeout` delay in milliseconds. -/
def TIMEOUT_MS : Nat := 5 * 60 * 1000

/-! ### Event machine for one invocation's settlement

`executeClaudeCode` wires three callbacks: the `close` handler (which
also clears the timer — a second `close` listener), the spawn `error`
handler, and the `setTimeout` callback (which kills the subprocess and
rejects with the timeout error).  A JS promise settles at most once; a
later resolve/reject is a no-op.  Events are delivered sequentially by
the event loop, so one invocation is a fold over its event list. -/

/-- Events the wrapper's callbacks can observe, in event-loop order.
`closeEv` carries the process exit code and the fully drained stdout and
stderr buffers; `timerFire` is the `setTimeout` callback becoming due. -/
inductive ProcEvent
  | closeEv (code : Int) (stdout stderr : String)
  | errorEv (msg : String)
  | timerFire

/-- Wrapper state: the promise's settlement, whether the timer is still
armed, and whether `claude.kill` has been called. -/
structure InvokeSt where
  settled : Option InvokeOutcome
  timerActive : Bool
  killed : Bool
deriving DecidableEq

/-- State when `spawn` returns: promise pending, timer armed. -/
def initInvokeSt : InvokeSt := ⟨none, true, false⟩

/-- First settlement wins; later ones are no-ops. -/
def settleWith (s : InvokeSt) (o : InvokeOutcome) : InvokeSt :=
  match s.settled with
  | some _ => s
  | none => { s with settled := some o }

/-- One event: `close` settles by exit code and clears the timer; `error`
settles with the spawn failure; a due timer (if still armed) kills the
subprocess and settles with the timeout error. -/
def stepInvoke (s : InvokeSt) (e : ProcEvent) : InvokeSt :=
  match e with
  | .closeEv code stdout stderr =>
    { settleWith s (classifyClose code stdout stderr) with timerActive := false }
  | .errorEv msg => settleWith s (classifySpawnErr msg)
  | .timerFire =>
    if s.timerActive then
      settleWith { s with timerActive := false, killed := true }
        (.timeoutErr "Claude Code timed out after 5 minutes")
    else s

/-- Deliver a list of events. -/
def runInvoke (s : InvokeSt) (events : List ProcEvent) : InvokeSt :=
  events.foldl stepInvoke s

/-- How many events settled the promise (a settlement is the transition
from pending to settled). -/
def settleCount (s : InvokeSt) : List ProcEvent → Nat
  | [] => 0
  | e :: rest =>
    let s' := stepInvoke s e
    (if s.settled.isNone && s'.settled.isSome then 1 else 0) + settleCount s' rest

/-- A guarded message-handler round (index.js `message:text` handler):
check the admission gate; when acquired, await the invocation and release
the slot in `finally`.  Returns the final lock set, the settled outcome
(`none` when the request was dropped as busy), and how many times the
slot was released. -/
def handleRequest (lock : List String) (c : String) (events : List ProcEvent) :
    List String × Option InvokeOutcome × Nat :=
  match tryAcquire c lock with
  | (false, l) => (l, none, 0)
  | (true, l) =>
    let fin := runInvoke initInvokeSt events
    (release c l, fin.settled, 1)

/-! ## Session-key derivation — `getSessionId` (index.js) -/

/-- The configuration constants `getSessionId` consumes. -/
structure Config where
  sessionPfx : String
  workingDirectory : String

/-- The parts of a grammY context `getSessionId` reads: `ctx.from?.id`,
`ctx.chat?.id` and `ctx.chat?.type`. -/
structure Ctx where
  userId : Int
  chatId : Int
  chatType : String

/-- `getSessionId` (index.js): resolve the chat's repo (default: the
configured working directory), fingerprint it, and build
`{prefix}-{userId}-{hash}` for private chats and
`{prefix}-group-{chatId}-{hash}` otherwise. -/
def getSessionId (cfg : Config) (repos : RepoMap) (ctx : Ctx) : String :=
  let repoPath := getRepoForChat repos (ChatId.num ctx.chatId) cfg.workingDirectory
  let repoHash := hashRepoPath repoPath
  if ctx.chatType = "private" then
    cfg.sessionPfx ++ "-" ++ toString ctx.userId ++ "-" ++ repoHash
  else
    cfg.sessionPfx ++ "-group-" ++ toString ctx.chatId ++ "-" ++ repoHash

/-- The pure key-derivation core of `getSessionId`, as a function of the
conversation id and the (already resolved) workspace path. -/
def deriveSessionKey (pfx : String) (isGroup : Bool) (conversationId : Int)
    (workspacePath : String) : String :=
  if isGroup then
    pfx ++ "-group-" ++ toString conversationId ++ "-" ++ hashRepoPath workspacePath
  else
    pfx ++ "-" ++ toString conversationId ++ "-" ++ hashRepoPath workspacePath

/-! ## Helper lemmas -/

theorem data_append (s t : String) : (s ++ t).data = s.data ++ t.data := by
  cases s; cases t; rfl

theorem string_append_left_cancel {a s t : String} (h : a ++ s = a ++ t) : s = t := by
  have hd : a.data ++ s.data = a.data ++ t.data := by
    rw [← data_append, ← data_append, h]
  have hst : s.data = t.data := List.append_cancel_left hd
  cases s; cases t
  exact congrArg String.mk hst

theorem lookup_upsert {α : Type} (k q : String) (v : α) :
    ∀ m : List (String × α),
      lookupAssoc q (upsertAssoc k v m) =
        if k = q then some v else lookupAssoc q m := by
  intro m
  induction m with
  | nil =>
    by_cases h : k = q <;> simp [upsertAssoc, lookupAssoc, h]
  | cons kv rest ih =>
    obtain ⟨k', v'⟩ := kv
    by_cases h1 : k' = k
    · subst h1
      by_cases h2 : k' = q <;> simp [upsertAssoc, lookupAssoc, h2]
    · by_cases h2 : k' = q
      · subst h2
        have hkq : ¬ k = k' := fun h => h1 h.symm
        simp [upsertAssoc, lookupAssoc, h1, hkq]
      · simp [upsertAssoc, lookupAssoc, h1, h2, ih]

theorem lookup_upsert_self {α : Type} (k : String) (v : α) (m : List (String × α)) :
    lookupAssoc k (upsertAssoc k v m) = some v := by
  simp [lookup_upsert]

theorem lookup_remove {α : Type} (k : String) :
    ∀ m : List (String × α),
      lookupAssoc k (m.filter (fun p => p.1 != k)) = none := by
  intro m
  induction m with
  | nil => simp [lookupAssoc]
  | cons kv rest ih =>
    obtain ⟨k', v'⟩ := kv
    by_cases h : k' = k
    · simp [h, lookupAssoc, ih]
    · simp [h, lookupAssoc, ih]

theorem flatten_map_byteHex_length (bs : List Nat) :
    ((bs.map byteHexChars).flatten).length = 2 * bs.length := by
  induction bs with
  | nil => simp
  | cons b rest ih => simp [byteHexChars, ih]; omega

theorem md5HexChars_length (msg : List Nat) : (md5HexChars msg).length = 32 := by
  unfold md5HexChars
  obtain ⟨a, b, c, d⟩ := md5Core msg
  simp [wordLEBytes, byteHexChars]

theorem hashRepoPath_length (p : String) : (hashRepoPath p).length = 8 := by
  show ((md5HexChars (utf8Encode p)).take 8).length = 8
  simp [md5HexChars_length]

theorem deriveSessionKey_hash_inj (pfx : String) (g : Bool) (cid : Int)
    {p p' : String}
    (h : deriveSessionKey pfx g cid p = deriveSessionKey pfx g cid p') :
    hashRepoPath p = hashRepoPath p' := by
  unfold deriveSessionKey at h
  cases g
  · exact string_append_left_cancel h
  · exact string_append_left_cancel h

/-! ## C1 — session-key derivation as a pure function of
`(conversationId, workspacePath)` -/

/-- C1 (counterexample): the claim "holding the conversation id fixed and
changing the workspace path yields a different key" is false: the
fingerprint is an MD5 digest truncated to 8 hex characters, so distinct
paths can collide.  `"/w5931"` and `"/w16425"` are distinct workspace
paths whose truncated digests are both `"73b501a1"`, hence conversation
42 derives the identical key for both. -/
theorem c1_keyCollision :
    ("/w5931" : String) ≠ "/w16425" ∧
    deriveSessionKey "telegram" false 42 "/w5931" =
      deriveSessionKey "telegram" false 42 "/w16425" ∧
    deriveSessionKey "telegram" false 42 "/w5931" = "telegram-42-73b501a1" :=
  ⟨by decide, by decide, by decide⟩

/-- C1 (amended): session-key derivation is a pure function of
`(conversationId, workspacePath)`: deriving twice with identical inputs
yields the identical key; holding the conversation id fixed and changing
the workspace path yields a different key WHENEVER the new path's
truncated-MD5 fingerprint differs (truncated-digest collisions being the
sole exception); and reverting the workspace path to a prior value
re-derives exactly the original key. -/
theorem c1_sessionKey_pure (pfx : String) (isGroup : Bool) (cid : Int)
    (p p' : String) (hfp : hashRepoPath p ≠ hashRepoPath p') :
    deriveSessionKey pfx isGroup cid p = deriveSessionKey pfx isGroup cid p ∧
    deriveSessionKey pfx isGroup cid p ≠ deriveSessionKey pfx isGroup cid p' ∧
    (∀ q : String, q = p →
      deriveSessionKey pfx isGroup cid q = deriveSessionKey pfx isGroup cid p) := by
  refine ⟨rfl, ?_, fun q hq => by rw [hq]⟩
  intro h
  exact hfp (deriveSessionKey_hash_inj pfx isGroup cid h)

/-- Witness for C1 (amended) at `/repo` vs `/other` for conversation 42. -/
theorem c1_sessionKey_pure_witness :
    hashRepoPath "/repo" ≠ hashRepoPath "/other" ∧
    (deriveSessionKey "telegram" false 42 "/repo" =
        deriveSessionKey "telegram" false 42 "/repo" ∧
      deriveSessionKey "telegram" false 42 "/repo" ≠
        deriveSessionKey "telegram" false 42 "/other" ∧
      (∀ q : String, q = "/repo" →
        deriveSessionKey "telegram" false 42 q =
          deriveSessionKey "telegram" false 42 "/repo")) :=
  ⟨by decide, c1_sessionKey_pure "telegram" false 42 "/repo" "/other" (by decide)⟩

/-! ## C2 — the form of the logical session key -/

/-- C2: the derived logical key has exactly the form
`{prefix}-{conversationId}-{fingerprint}` in a private context and
`{prefix}-group-{conversationId}-{fingerprint}` in a group context
(Telegram group chat types are `group` and `supergroup`), where the
fingerprint is the fixed-length (8 characters) deterministic digest of
the resolved workspace path; in particular conversation 42 with no
workspace set and default workspace `/repo` derives
`telegram-42-6530f9eb` where `6530f9eb` is the fingerprint of `/repo`. -/
theorem c2_logicalKey_form (pfx dflt : String) (repos : RepoMap) (uid cid : Int) :
    getSessionId ⟨pfx, dflt⟩ repos ⟨cid, cid, "private"⟩ =
      pfx ++ "-" ++ toString cid ++ "-" ++
        hashRepoPath (getRepoForChat repos (ChatId.num cid) dflt) ∧
    getSessionId ⟨pfx, dflt⟩ repos ⟨uid, cid, "group"⟩ =
      pfx ++ "-group-" ++ toString cid ++ "-" ++
        hashRepoPath (getRepoForChat repos (ChatId.num cid) dflt) ∧
    getSessionId ⟨pfx, dflt⟩ repos ⟨uid, cid, "supergroup"⟩ =
      pfx ++ "-group-" ++ toString cid ++ "-" ++
        hashRepoPath (getRepoForChat repos (ChatId.num cid) dflt) ∧
    (∀ p, (hashRepoPath p).length = 8) ∧
    (∀ p : String, hashRepoPath p = hashRepoPath p) ∧
    getSessionId ⟨"telegram", "/repo"⟩ [] ⟨42, 42, "private"⟩ =
      "telegram-42-" ++ hashRepoPath "/repo" ∧
    hashRepoPath "/repo" = "6530f9eb" := by
  refine ⟨?_, ?_, ?_, hashRepoPath_length, fun p => rfl, ?_, by decide⟩
  · simp [getSessionId]
  · simp [getSessionId]
  · simp [getSessionId]
  · decide

/-! ## C3 — session store: stable handles, fresh handles on reset -/

theorem stepOp_nextId_le (s : SessionSt) (op : SOp) :
    s.nextId ≤ (stepOp s op).2.nextId := by
  cases op with
  | getU k =>
    simp only [stepOp, getSessionUUID]
    cases lookupAssoc k s.mappings <;> simp
  | resetU k => simp [stepOp, resetSession]

theorem stepOp_handle_lt (s : SessionSt) (op : SOp) (hwf : WFSession s) :
    (stepOp s op).1 < (stepOp s op).2.nextId := by
  cases op with
  | getU k =>
    simp only [stepOp, getSessionUUID]
    cases h : lookupAssoc k s.mappings with
    | some r => simpa using (hwf k r h).1
    | none => simp
  | resetU k => simp [stepOp, resetSession]

theorem stepOp_WF (s : SessionSt) (op : SOp) (hwf : WFSession s) :
    WFSession (stepOp s op).2 := by
  cases op with
  | getU k =>
    simp only [stepOp, getSessionUUID]
    cases h : lookupAssoc k s.mappings with
    | some r => simpa using hwf
    | none =>
      intro k' r' h'
      simp only [lookup_upsert] at h'
      by_cases hk : k = k'
      · rw [if_pos hk] at h'
        have hr : (⟨s.nextId, none⟩ : SessionRec) = r' := Option.some.inj h'
        subst hr
        exact ⟨Nat.lt_succ_self _, fun u hu => by simp at hu⟩
      · rw [if_neg hk] at h'
        have hb := hwf k' r' h'
        exact ⟨Nat.lt_succ_of_lt hb.1, fun u hu => Nat.lt_succ_of_lt (hb.2 u hu)⟩
  | resetU k =>
    intro k' r' h'
    simp only [stepOp, resetSession, lookup_upsert] at h' ⊢
    by_cases hk : k = k'
    · rw [if_pos hk] at h'
      have hr : (⟨s.nextId, (lookupAssoc k s.mappings).map (·.uuid)⟩ : SessionRec) = r' :=
        Option.some.inj h'
      subst hr
      refine ⟨Nat.lt_succ_self _, ?_⟩
      intro u hu
      cases hl : lookupAssoc k s.mappings with
      | none => rw [hl] at hu; simp at hu
      | some r =>
        rw [hl] at hu
        simp only [Option.map_some'] at hu
        have hu' : r.uuid = u := Option.some.inj hu
        subst hu'
        exact Nat.lt_succ_of_lt (hwf k r hl).1
    · rw [if_neg hk] at h'
      have hb := hwf k' r' h'
      exact ⟨Nat.lt_succ_of_lt hb.1, fun u hu => Nat.lt_succ_of_lt (hb.2 u hu)⟩

theorem runOps_nextId_le (s : SessionSt) (ops : List SOp) :
    s.nextId ≤ (runOps s ops).1.nextId := by
  induction ops generalizing s with
  | nil => simp [runOps]
  | cons op rest ih =>
    have h1 := stepOp_nextId_le s op
    have h2 := ih (stepOp s op).2
    simp only [runOps]
    omega

theorem runOps_WF (s : SessionSt) (ops : List SOp) (hwf : WFSession s) :
    WFSession (runOps s ops).1 := by
  induction ops generalizing s with
  | nil => simpa [runOps] using hwf
  | cons op rest ih => simpa [runOps] using ih (stepOp s op).2 (stepOp_WF s op hwf)

theorem runOps_issued_lt (s : SessionSt) (ops : List SOp) (hwf : WFSession s) :
    ∀ pr ∈ (runOps s ops).2, pr.2 < (runOps s ops).1.nextId := by
  induction ops generalizing s with
  | nil => simp [runOps]
  | cons op rest ih =>
    intro pr hpr
    simp only [runOps, List.mem_cons] at hpr
    rcases hpr with h | h
    · subst h
      have h1 := stepOp_handle_lt s op hwf
      have h2 := runOps_nextId_le (stepOp s op).2 rest
      simp only [runOps]
      omega
    · simpa [runOps] using ih (stepOp s op).2 (stepOp_WF s op hwf) pr h

/-- C3: for every logical key `k`, two `getSessionUUID` calls with no
intervening reset return the same handle; `resetSession k`, performed
after any sequence of store operations from a well-formed initial state,
returns a handle different from the key's previously current handle and
from every handle previously issued for `k`, and moves the previously
current handle (if any) into the record's `previousUUID` field. -/
theorem c3_sessionStore (s0 : SessionSt) (ops : List SOp) (k : String)
    (hwf : WFSession s0) :
    (∀ s : SessionSt,
      (getSessionUUID k (getSessionUUID k s).2).1 = (getSessionUUID k s).1) ∧
    (∀ rec, lookupAssoc k (runOps s0 ops).1.mappings = some rec →
      (resetSession k (runOps s0 ops).1).1 ≠ rec.uuid) ∧
    (∀ pr ∈ (runOps s0 ops).2, pr.1 = k →
      (resetSession k (runOps s0 ops).1).1 ≠ pr.2) ∧
    lookupAssoc k (resetSession k (runOps s0 ops).1).2.mappings =
      some ⟨(resetSession k (runOps s0 ops).1).1,
            (lookupAssoc k (runOps s0 ops).1.mappings).map (·.uuid)⟩ := by
  refine ⟨?_, ?_, ?_, ?_⟩
  · intro s
    simp only [getSessionUUID]
    cases h : lookupAssoc k s.mappings with
    | some r => simp [h]
    | none => simp [h, lookup_upsert_self]
  · intro rec hrec
    have := (runOps_WF s0 ops hwf k rec hrec).1
    simp only [resetSession]
    omega
  · intro pr hpr _
    have := runOps_issued_lt s0 ops hwf pr hpr
    simp only [resetSession]
    omega
  · simp [resetSession, lookup_upsert_self]

/-- Witness for C3: the empty store, one get and one reset on key `a`. -/
theorem c3_sessionStore_witness :
    WFSession ⟨[], 0⟩ ∧
    ((∀ s : SessionSt,
      (getSessionUUID "a" (getSessionUUID "a" s).2).1 = (getSessionUUID "a" s).1) ∧
    (∀ rec,
      lookupAssoc "a" (runOps ⟨[], 0⟩ [SOp.getU "a", SOp.resetU "a"]).1.mappings = some rec →
      (resetSession "a" (runOps ⟨[], 0⟩ [SOp.getU "a", SOp.resetU "a"]).1).1 ≠ rec.uuid) ∧
    (∀ pr ∈ (runOps ⟨[], 0⟩ [SOp.getU "a", SOp.resetU "a"]).2, pr.1 = "a" →
      (resetSession "a" (runOps ⟨[], 0⟩ [SOp.getU "a", SOp.resetU "a"]).1).1 ≠ pr.2) ∧
    lookupAssoc "a" (resetSession "a" (runOps ⟨[], 0⟩ [SOp.getU "a", SOp.resetU "a"]).1).2.mappings =
      some ⟨(resetSession "a" (runOps ⟨[], 0⟩ [SOp.getU "a", SOp.resetU "a"]).1).1,
            (lookupAssoc "a" (runOps ⟨[], 0⟩ [SOp.getU "a", SOp.resetU "a"]).1.mappings).map
              (·.uuid)⟩) := by
  have pf : WFSession ⟨[], 0⟩ := by
    intro k r h
    simp [lookupAssoc] at h
  exact ⟨pf, c3_sessionStore ⟨[], 0⟩ [SOp.getU "a", SOp.resetU "a"] "a" pf⟩

/-! ## C4 — the admission gate -/

/-- C4: with conversation `c` not currently holding a slot, `tryAcquire c`
then `tryAcquire c` (no intervening release) return `true` then `false`;
after `release c` a further `tryAcquire c` returns `true`; two distinct
conversations `c1 ≠ c2` both acquire successfully and independently; and
the lock set stays duplicate-free (at most one acquired slot per
conversation at any instant), with a denied request changing nothing
(no queueing). -/
theorem c4_admissionGate (s : List String) (c c1 c2 : String)
    (hc : s.contains c = false) (hnd : s.Nodup)
    (h1 : s.contains c1 = false) (h2 : s.contains c2 = false) (hne : c1 ≠ c2) :
    (tryAcquire c s).1 = true ∧
    (tryAcquire c (tryAcquire c s).2).1 = false ∧
    (tryAcquire c (tryAcquire c s).2).2 = (tryAcquire c s).2 ∧
    (tryAcquire c (release c (tryAcquire c s).2)).1 = true ∧
    (tryAcquire c1 s).1 = true ∧
    (tryAcquire c2 (tryAcquire c1 s).2).1 = true ∧
    ((tryAcquire c s).2).Nodup ∧
    (release c ((tryAcquire c s).2)).Nodup := by
  have hmem : c ∉ s := by simpa using hc
  have hmem1 : c1 ∉ s := by simpa using h1
  have hmem2 : c2 ∉ s := by simpa using h2
  have t1 : tryAcquire c s = (true, c :: s) := by simp [tryAcquire, hmem]
  have t2 : tryAcquire c (c :: s) = (false, c :: s) := by simp [tryAcquire]
  have tr : release c (c :: s) = s := by simp [release]
  have t3 : tryAcquire c1 s = (true, c1 :: s) := by simp [tryAcquire, hmem1]
  have t4 : (tryAcquire c2 (c1 :: s)).1 = true := by
    simp [tryAcquire, hmem2, Ne.symm hne]
  refine ⟨by rw [t1], by rw [t1, t2], by rw [t1, t2], ?_, by rw [t3], by rw [t3]; exact t4, ?_, ?_⟩
  · rw [t1, tr, t1]
  · rw [t1]
    exact List.Nodup.cons hmem hnd
  · rw [t1, tr]
    exact hnd

/-- Witness for C4 on the empty lock set with conversations `1` and `2`. -/
theorem c4_admissionGate_witness :
    ([] : List String).contains "1" = false ∧ ([] : List String).Nodup ∧
    ([] : List String).contains "2" = false ∧ ("1" : String) ≠ "2" ∧
    ((tryAcquire "1" []).1 = true ∧
     (tryAcquire "1" (tryAcquire "1" []).2).1 = false ∧
     (tryAcquire "1" (tryAcquire "1" []).2).2 = (tryAcquire "1" []).2 ∧
     (tryAcquire "1" (release "1" (tryAcquire "1" []).2)).1 = true ∧
     (tryAcquire "1" []).1 = true ∧
     (tryAcquire "2" (tryAcquire "1" []).2).1 = true ∧
     ((tryAcquire "1" []).2).Nodup ∧
     (release "1" ((tryAcquire "1" []).2)).Nodup) := by
  refine ⟨by decide, by decide, by decide, by decide, ?_⟩
  exact c4_admissionGate [] "1" "1" "2" (by decide) (by decide) (by decide)
    (by decide) (by decide)

/-! ## C7 — workspace assignment rejects non-directories, store unchanged -/

/-- C7: when the path does not exist (`statSync` throws) or is not a
directory, `setRepoForChat` fails with the invalid-path error and the
store is unchanged: the conversation's prior mapping, if any, is still
present and unmodified. -/
theorem c7_workspaceSet_invalid (fs : String → Option FileKind) (now p : String)
    (cid : ChatId) (m : RepoMap) (hnd : fs p ≠ some FileKind.dir) :
    (∃ e, setRepoForChat fs now cid p m = Except.error e) ∧
    applySetRepo fs now cid p m = m ∧
    (∀ c' d, getRepoForChat (applySetRepo fs now cid p m) c' d = getRepoForChat m c' d) ∧
    (∀ k, lookupAssoc k (applySetRepo fs now cid p m) = lookupAssoc k m) := by
  have herr : ∃ e, setRepoForChat fs now cid p m = Except.error e := by
    cases hfs : fs p with
    | none =>
      exact ⟨"Invalid path: " ++ p ++ " - stat failed", by simp [setRepoForChat, hfs]⟩
    | some k =>
      cases k with
      | dir => exact absurd hfs hnd
      | file =>
        exact ⟨"Invalid path: " ++ p ++ " - Path is not a directory",
          by simp [setRepoForChat, hfs]⟩
  obtain ⟨e, he⟩ := herr
  have happ : applySetRepo fs now cid p m = m := by simp [applySetRepo, he]
  exact ⟨⟨e, he⟩, happ, fun c' d => by rw [happ], fun k => by rw [happ]⟩

/-- Witness for C7: a filesystem where `/tmp/f` is a regular file, with a
prior mapping for chat 1 in the store. -/
theorem c7_workspaceSet_invalid_witness :
    (fun _ : String => some FileKind.file) "/tmp/f" ≠ some FileKind.dir ∧
    ((∃ e, setRepoForChat (fun _ => some FileKind.file) "t" (ChatId.num 1) "/tmp/f"
        [("1", ⟨"/x", "s"⟩)] = Except.error e) ∧
     applySetRepo (fun _ => some FileKind.file) "t" (ChatId.num 1) "/tmp/f"
        [("1", ⟨"/x", "s"⟩)] = [("1", ⟨"/x", "s"⟩)] ∧
     (∀ c' d, getRepoForChat (applySetRepo (fun _ => some FileKind.file) "t"
        (ChatId.num 1) "/tmp/f" [("1", ⟨"/x", "s"⟩)]) c' d =
        getRepoForChat [("1", ⟨"/x", "s"⟩)] c' d) ∧
     (∀ k, lookupAssoc k (applySetRepo (fun _ => some FileKind.file) "t"
        (ChatId.num 1) "/tmp/f" [("1", ⟨"/x", "s"⟩)]) =
        lookupAssoc k [("1", ⟨"/x", "s"⟩)])) := by
  refine ⟨by decide, ?_⟩
  exact c7_workspaceSet_invalid (fun _ => some FileKind.file) "t" "/tmp/f"
    (ChatId.num 1) [("1", ⟨"/x", "s"⟩)] (by decide)

/-! ## C10 — numeric and string chat ids address the same entry -/

/-- C10: the workspace store keys entries by `String(chatId)`, so a
numeric id and its decimal-string form address the same entry: setting
with the number and reading with the string (or vice versa) returns the
path just set, and removing with the string form deletes the mapping
created with the number, after which lookup falls back to the default. -/
theorem c10_chatKey_normalization (fs : String → Option FileKind)
    (now d : String) (c : Int) (p : String) (m : RepoMap)
    (hdir : fs p = some FileKind.dir) (hp : p ≠ "") :
    setRepoForChat fs now (ChatId.num c) p m =
      Except.ok (upsertAssoc (toString c) ⟨p, now⟩ m) ∧
    getRepoForChat (applySetRepo fs now (ChatId.num c) p m) (ChatId.str (toString c)) d = p ∧
    getRepoForChat (applySetRepo fs now (ChatId.str (toString c)) p m) (ChatId.num c) d = p ∧
    lookupAssoc (toString c)
      (removeRepoForChat (applySetRepo fs now (ChatId.num c) p m)
        (ChatId.str (toString c))) = none ∧
    getRepoForChat
      (removeRepoForChat (applySetRepo fs now (ChatId.num c) p m)
        (ChatId.str (toString c))) (ChatId.num c) d = d := by
  have happ : applySetRepo fs now (ChatId.num c) p m =
      upsertAssoc (toString c) ⟨p, now⟩ m := by
    simp [applySetRepo, setRepoForChat, hdir, chatKey]
  have happ' : applySetRepo fs now (ChatId.str (toString c)) p m =
      upsertAssoc (toString c) ⟨p, now⟩ m := by
    simp [applySetRepo, setRepoForChat, hdir, chatKey]
  have hrem : lookupAssoc (toString c)
      (removeRepoForChat (upsertAssoc (toString c) ⟨p, now⟩ m)
        (ChatId.str (toString c))) = none := by
    simp only [removeRepoForChat, chatKey]
    exact lookup_remove (toString c) _
  refine ⟨by simp [setRepoForChat, hdir, chatKey], ?_, ?_, ?_, ?_⟩
  · rw [happ]
    simp [getRepoForChat, chatKey, lookup_upsert_self, hp]
  · rw [happ']
    simp [getRepoForChat, chatKey, lookup_upsert_self, hp]
  · rw [happ]
    exact hrem
  · rw [happ]
    simp only [getRepoForChat, chatKey]
    rw [hrem]

/-- Witness for C10: chat id 42, a valid directory `/repo`. -/
theorem c10_chatKey_normalization_witness :
    (fun _ : String => some FileKind.dir) "/repo" = some FileKind.dir ∧
    ("/repo" : String) ≠ "" ∧
    (setRepoForChat (fun _ => some FileKind.dir) "t" (ChatId.num 42) "/repo" [] =
      Except.ok (upsertAssoc (toString (42 : Int)) ⟨"/repo", "t"⟩ []) ∧
    getRepoForChat (applySetRepo (fun _ => some FileKind.dir) "t" (ChatId.num 42) "/repo" [])
      (ChatId.str (toString (42 : Int))) "/d" = "/repo" ∧
    getRepoForChat (applySetRepo (fun _ => some FileKind.dir) "t"
      (ChatId.str (toString (42 : Int))) "/repo" []) (ChatId.num 42) "/d" = "/repo" ∧
    lookupAssoc (toString (42 : Int))
      (removeRepoForChat (applySetRepo (fun _ => some FileKind.dir) "t"
        (ChatId.num 42) "/repo" []) (ChatId.str (toString (42 : Int)))) = none ∧
    getRepoForChat
      (removeRepoForChat (applySetRepo (fun _ => some FileKind.dir) "t"
        (ChatId.num 42) "/repo" []) (ChatId.str (toString (42 : Int))))
      (ChatId.num 42) "/d" = "/d") := by
  refine ⟨by decide, by decide, ?_⟩
  exact c10_chatKey_normalization (fun _ => some FileKind.dir) "t" "/d" 42 "/repo" []
    (by decide) (by decide)

/-! ## C9 — subprocess environment construction -/

/-- C9: when a credential is configured (present and nonempty), the
subprocess environment equals the parent environment with
`ANTHROPIC_API_KEY` explicitly set to the configured value (pointwise on
every variable); when no credential is configured, the subprocess
environment is the parent environment unchanged (an empty configured
value is falsy in JS and also leaves the environment unchanged). -/
theorem c9_subprocessEnv (v : String) (parentEnv : List (String × String))
    (hv : v ≠ "") :
    (∀ k, lookupAssoc k (buildSpawnEnv (some v) parentEnv) =
        if k = "ANTHROPIC_API_KEY" then some v else lookupAssoc k parentEnv) ∧
    buildSpawnEnv none parentEnv = parentEnv ∧
    buildSpawnEnv (some "") parentEnv = parentEnv := by
  refine ⟨?_, rfl, rfl⟩
  intro k
  simp only [buildSpawnEnv, if_neg hv]
  rw [lookup_upsert]
  by_cases hk : k = "ANTHROPIC_API_KEY"
  · rw [if_pos hk, if_pos hk.symm]
  · rw [if_neg hk, if_neg (fun h => hk h.symm)]

/-- Witness for C9: credential `secret`, a one-variable parent
environment. -/
theorem c9_subprocessEnv_witness :
    ("secret" : String) ≠ "" ∧
    ((∀ k, lookupAssoc k (buildSpawnEnv (some "secret") [("PATH", "/bin")]) =
        if k = "ANTHROPIC_API_KEY" then some "secret"
        else lookupAssoc k [("PATH", "/bin")]) ∧
     buildSpawnEnv none [("PATH", "/bin")] = [("PATH", "/bin")] ∧
     buildSpawnEnv (some "") [("PATH", "/bin")] = [("PATH", "/bin")]) :=
  ⟨by decide, c9_subprocessEnv "secret" [("PATH", "/bin")] (by decide)⟩

/-! ## C5 — outcome classification of an invocation -/

/-- C5 (counterexample): the claim says a non-zero exit carries the
captured stderr, "falling back to the captured stdout when stderr is
empty".  The `--session-id` variant of the close handler (src/claude.js)
has no stdout fallback: at exit code 1 with stdout `diag` and empty
stderr it produces the fixed `Unknown error` diagnostic, not one carrying
`diag`.  (Only the superseded `-c` variant falls back to stdout.) -/
theorem c5_noStdoutFallback :
    classifyCloseById 1 "diag" "" =
      InvokeOutcome.processError "Claude Code failed: Unknown error" ∧
    InvokeOutcome.processError "Claude Code failed: Unknown error" ≠
      InvokeOutcome.processError "Claude Code failed: diag" ∧
    classifyClose 1 "diag" "" = InvokeOutcome.processError "Claude Code failed: diag" :=
  ⟨by decide, by decide, by decide⟩

/-- C5 (amended): exit code 0 yields success with the sanitized stdout;
a non-zero exit yields an external-process error carrying stderr, the
`--session-id` variant falling back to the fixed text `Unknown error`
when stderr is empty while the `-c` variant falls back first to the
captured stdout and then to `Unknown error`; a failure to start the
subprocess yields the spawn error. -/
theorem c5_outcomeClassification (code : Int) (stdout stderr msg : String)
    (hc : code ≠ 0) :
    classifyCloseById 0 stdout stderr = InvokeOutcome.success (cleanClaudeResponse stdout) ∧
    classifyClose 0 stdout stderr = InvokeOutcome.success (cleanClaudeResponse stdout) ∧
    (stderr ≠ "" →
      classifyCloseById code stdout stderr =
        InvokeOutcome.processError ("Claude Code failed: " ++ stderr) ∧
      classifyClose code stdout stderr =
        InvokeOutcome.processError ("Claude Code failed: " ++ stderr)) ∧
    classifyCloseById code stdout "" =
      InvokeOutcome.processError "Claude Code failed: Unknown error" ∧
    (stdout ≠ "" →
      classifyClose code stdout "" =
        InvokeOutcome.processError ("Claude Code failed: " ++ stdout)) ∧
    classifyClose code "" "" = InvokeOutcome.processError "Claude Code failed: Unknown error" ∧
    classifySpawnErr msg = InvokeOutcome.spawnFailure ("Failed to start Claude Code: " ++ msg) := by
  refine ⟨by simp [classifyCloseById], by simp [classifyClose], ?_, ?_, ?_, ?_, rfl⟩
  · intro hs
    exact ⟨by simp [classifyCloseById, hc, hs], by simp [classifyClose, hc, hs]⟩
  · simp [classifyCloseById, hc]
  · intro hs
    simp [classifyClose, hc, hs]
  · simp [classifyClose, hc]

/-- Witness for C5 (amended) at exit code 1. -/
theorem c5_outcomeClassification_witness :
    (1 : Int) ≠ 0 ∧
    (classifyCloseById 0 "o" "e" = InvokeOutcome.success (cleanClaudeResponse "o") ∧
    classifyClose 0 "o" "e" = InvokeOutcome.success (cleanClaudeResponse "o") ∧
    (("e" : String) ≠ "" →
      classifyCloseById 1 "o" "e" =
        InvokeOutcome.processError ("Claude Code failed: " ++ "e") ∧
      classifyClose 1 "o" "e" =
        InvokeOutcome.processError ("Claude Code failed: " ++ "e")) ∧
    classifyCloseById 1 "o" "" =
      InvokeOutcome.processError "Claude Code failed: Unknown error" ∧
    (("o" : String) ≠ "" →
      classifyClose 1 "o" "" =
        InvokeOutcome.processError ("Claude Code failed: " ++ "o")) ∧
    classifyClose 1 "" "" = InvokeOutcome.processError "Claude Code failed: Unknown error" ∧
    classifySpawnErr "m" = InvokeOutcome.spawnFailure ("Failed to start Claude Code: " ++ "m")) :=
  ⟨by decide, c5_outcomeClassification 1 "o" "e" "m" (by decide)⟩

/-! ## C6 — output sanitization -/

/-- C6 (counterexample): the claim describes stage 3 as stripping "lines
consisting of animated-progress-indicator glyphs"; the code's regex
`^[⠋⠙⠹⠸⠼⠴⠦⠧⠇⠏].*$` (multiline) instead empties every line that merely
BEGINS with a spinner glyph.  On `A\n⠋ x\nB` the code empties the
mixed line (leaving a blank line), whereas the claimed pure-glyph rule
would keep it. -/
theorem c6_spinnerLineSemantics :
    cleanClaudeResponse "A\n⠋ x\nB" = "A\n\nB" ∧
    cleanResponseClaimed "A\n⠋ x\nB" = "A\n⠋ x\nB" ∧
    ("A\n\nB" : String) ≠ "A\n⠋ x\nB" :=
  ⟨by decide, by decide, by decide⟩

/-- C6 (amended): sanitization applies, in order: strip ANSI escape
sequences; drop carriage returns; empty every line beginning with a
spinner glyph; collapse 3+ consecutive newlines to two; trim.  An input
containing an ANSI cursor-movement sequence, a carriage return, a
spinner-glyph-only line, and five consecutive blank lines yields the
escape sequence removed, no carriage returns, the spinner line removed,
and exactly one blank line where the five were, trimmed at both ends.
The third conjunct shows ANSI stripping precedes spinner stripping: an
escape sequence hiding the leading glyph is removed first, so the line
is still treated as a spinner line. -/
theorem c6_sanitizationPipeline :
    cleanClaudeResponse "\x1B[2A\rhello\n⠋\n\n\n\n\n\nworld\n" = "hello\n\nworld" ∧
    cleanClaudeResponse "a\x1B[31mb\r\nc" = "ab\nc" ∧
    cleanClaudeResponse "x\n\x1B[2K⠋ done\ny" = "x\n\ny" :=
  ⟨by decide, by decide, by decide⟩

/-! ## C8 — the 5-minute timeout, forced kill, single settlement,
single release -/

theorem runInvoke_stable (o : InvokeOutcome) (events : List ProcEvent) :
    ∀ s : InvokeSt, s.settled = some o → s.timerActive = false → s.killed = false →
      (runInvoke s events).settled = some o ∧
      (runInvoke s events).timerActive = false ∧
      (runInvoke s events).killed = false := by
  induction events with
  | nil =>
    intro s h1 h2 h3
    exact ⟨h1, h2, h3⟩
  | cons e rest ih =>
    intro s h1 h2 h3
    have hstep : (stepInvoke s e).settled = some o ∧
        (stepInvoke s e).timerActive = false ∧ (stepInvoke s e).killed = false := by
      cases e with
      | closeEv code stdout stderr => simp [stepInvoke, settleWith, h1, h2, h3]
      | errorEv msg => simp [stepInvoke, settleWith, h1, h2, h3]
      | timerFire => simp [stepInvoke, h1, h2, h3]
    exact ih (stepInvoke s e) hstep.1 hstep.2.1 hstep.2.2

/-- C8: the timeout constant is 5 minutes (300000 ms); when the
subprocess never exits the timer fires, the subprocess is killed and the
call settles with the timeout error exactly once (the close event from
the kill settles nothing further); on normal completion the timer is
cleared, so no event delivered afterwards can ever kill the process; and
around the whole invocation the conversation's admission slot is
released exactly once, restoring the lock set (no leak, no double
release). -/
theorem c8_timeout (code : Int) (stdout stderr : String)
    (events : List ProcEvent) (lock : List String) (c : String)
    (hc : c ∉ lock) :
    TIMEOUT_MS = 300000 ∧
    (runInvoke initInvokeSt [ProcEvent.timerFire, ProcEvent.closeEv code stdout stderr]).settled =
      some (InvokeOutcome.timeoutErr "Claude Code timed out after 5 minutes") ∧
    (runInvoke initInvokeSt [ProcEvent.timerFire, ProcEvent.closeEv code stdout stderr]).killed
      = true ∧
    settleCount initInvokeSt [ProcEvent.timerFire, ProcEvent.closeEv code stdout stderr] = 1 ∧
    (runInvoke initInvokeSt (ProcEvent.closeEv 0 stdout stderr :: events)).settled =
      some (InvokeOutcome.success (cleanClaudeResponse stdout)) ∧
    (runInvoke initInvokeSt (ProcEvent.closeEv 0 stdout stderr :: events)).killed = false ∧
    (handleRequest lock c [ProcEvent.timerFire, ProcEvent.closeEv code stdout stderr]).2.2 = 1 ∧
    (handleRequest lock c [ProcEvent.timerFire, ProcEvent.closeEv code stdout stderr]).1 = lock ∧
    (handleRequest lock c [ProcEvent.timerFire, ProcEvent.closeEv code stdout stderr]).2.1 =
      some (InvokeOutcome.timeoutErr "Claude Code timed out after 5 minutes") := by
  have hto : runInvoke initInvokeSt [ProcEvent.timerFire, ProcEvent.closeEv code stdout stderr] =
      ⟨some (InvokeOutcome.timeoutErr "Claude Code timed out after 5 minutes"), false, true⟩ := by
    simp [runInvoke, stepInvoke, settleWith, initInvokeSt]
  have hs1 : stepInvoke initInvokeSt (ProcEvent.closeEv 0 stdout stderr) =
      ⟨some (InvokeOutcome.success (cleanClaudeResponse stdout)), false, false⟩ := by
    simp [stepInvoke, settleWith, initInvokeSt, classifyClose]
  have hrest := runInvoke_stable (InvokeOutcome.success (cleanClaudeResponse stdout)) events
    (stepInvoke initInvokeSt (ProcEvent.closeEv 0 stdout stderr))
    (by rw [hs1]) (by rw [hs1]) (by rw [hs1])
  have hacq : tryAcquire c lock = (true, c :: lock) := by simp [tryAcquire, hc]
  have hrel : release c (c :: lock) = lock := by simp [release]
  have hhr : handleRequest lock c [ProcEvent.timerFire, ProcEvent.closeEv code stdout stderr] =
      (lock, some (InvokeOutcome.timeoutErr "Claude Code timed out after 5 minutes"), 1) := by
    simp only [handleRequest, hacq, hto, hrel]
  refine ⟨rfl, by rw [hto], by rw [hto], ?_, hrest.1, hrest.2.2, by rw [hhr], by rw [hhr],
    by rw [hhr]⟩
  simp [settleCount, stepInvoke, settleWith, initInvokeSt]

/-- Witness for C8: conversation `42`, the empty lock set, exit code 1. -/
theorem c8_timeout_witness :
    ("42" : String) ∉ ([] : List String) ∧
    (TIMEOUT_MS = 300000 ∧
    (runInvoke initInvokeSt [ProcEvent.timerFire, ProcEvent.closeEv 1 "out" "err"]).settled =
      some (InvokeOutcome.timeoutErr "Claude Code timed out after 5 minutes") ∧
    (runInvoke initInvokeSt [ProcEvent.timerFire, ProcEvent.closeEv 1 "out" "err"]).killed
      = true ∧
    settleCount initInvokeSt [ProcEvent.timerFire, ProcEvent.closeEv 1 "out" "err"] = 1 ∧
    (runInvoke initInvokeSt (ProcEvent.closeEv 0 "out" "err" :: [])).settled =
      some (InvokeOutcome.success (cleanClaudeResponse "out")) ∧
    (runInvoke initInvokeSt (ProcEvent.closeEv 0 "out" "err" :: [])).killed = false ∧
    (handleRequest [] "42" [ProcEvent.timerFire, ProcEvent.closeEv 1 "out" "err"]).2.2 = 1 ∧
    (handleRequest [] "42" [ProcEvent.timerFire, ProcEvent.closeEv 1 "out" "err"]).1 = [] ∧
    (handleRequest [] "42" [ProcEvent.timerFire, ProcEvent.closeEv 1 "out" "err"]).2.1 =
      some (InvokeOutcome.timeoutErr "Claude Code timed out after 5 minutes")) :=
  ⟨by decide, c8_timeout 1 "out" "err" [] [] "42" (by decide)⟩

end ClaudeTelegramBot
